import Mathlib

/-!
Verification of the literature-data extraction core of
`literature_search.py` (functions `extract_relevant_data`,
`extract_percentage`, `extract_cost`).

Modelling decisions (shallow embedding):
* Python strings are Lean `String`s; scanning works on `String.data`
  (`List Char`).
* Python `str.lower()` is modelled by `Char.toLower` on each character
  (ASCII case folding; all trigger keywords and pattern characters are
  ASCII, so this agrees with Python on the character classes the
  extractor inspects).
* The regex character class `\d` is modelled as ASCII digits
  (`Char.isDigit`).
* A Python dict entry that may be absent is an `Option`; a metric value
  assigned from an extractor (which itself may return `None`) is hence
  an `Option (Option String)`: `none` = key absent, `some none` = key
  present with value `None`, `some (some v)` = key present with value v.
* An article dict possibly missing keys is a structure of `Option
  String` fields; a `None` entry in the input list is `Option Article`'s
  `none`.
* The source file's currency regex character class contains, between
  `\$` and `]`, the raw bytes C3 A2 E2 80 9A C2 B9, i.e. the three
  characters `â` (U+00E2), `‚` (U+201A), `¹` (U+00B9) — the UTF-8
  encoding of the rupee sign `₹` (U+20B9) mis-decoded as Latin-1.  The
  embedding reproduces those three characters exactly as the Python
  interpreter sees them.
-/

/-- Does the character list `p` occur at the very start of `l`?  Models the
start-anchored comparison used below for substring search. -/
def startsWith : List Char → List Char → Bool
  | [], _ => true
  | _ :: _, [] => false
  | a :: as, b :: bs => a = b && startsWith as bs

/-- Python's `needle in haystack` substring test on character lists. -/
def containsSub (needle : List Char) : List Char → Bool
  | [] => startsWith needle []
  | c :: rest => startsWith needle (c :: rest) || containsSub needle rest

/-- Python's `s1 in s2` on strings. -/
def strContains (needle haystack : String) : Bool :=
  containsSub needle.data haystack.data

/-- Python's `str.lower()` (ASCII case folding, see header note). -/
def lowerStr (s : String) : String := ⟨s.data.map Char.toLower⟩

/-- Split off the maximal leading run of ASCII digits (the greedy `\d+`,
possibly empty): returns (digit run, remaining characters). -/
def takeDigits : List Char → List Char × List Char
  | [] => ([], [])
  | c :: rest =>
      if c.isDigit then
        let p := takeDigits rest
        (c :: p.1, p.2)
      else ([], c :: rest)

/-- Attempt to match the regex `(\d+(?:\.\d+)?)%` at the very start of `l`
(as Python's `re` does at each scan position).  Returns the capture group
and the characters after the match.  Backtracking the greedy `\d+` runs can
never succeed for this pattern (a shorter digit run leaves a digit as the
next character, which matches neither `.` nor `%`), so the maximal-run
match below is exactly the regex's behaviour. -/
def tryPct (l : List Char) : Option (List Char × List Char) :=
  let p := takeDigits l
  if p.1.isEmpty then none
  else
    match p.2 with
    | '.' :: r2 =>
        let q := takeDigits r2
        if q.1.isEmpty then none
        else
          match q.2 with
          | '%' :: r4 => some (p.1 ++ '.' :: q.1, r4)
          | _ => none
    | '%' :: r2 => some (p.1, r2)
    | _ => none

/-- Leftmost match of `(\d+(?:\.\d+)?)%` in `l`: scan positions left to
right, return the first successful match's capture group.  This is
`re.findall(..., text)[0]` of the source (`percentages[0]`), which only
ever consumes the first element of the match list. -/
def pctFirst : List Char → Option (List Char)
  | [] => none
  | c :: rest =>
      match tryPct (c :: rest) with
      | some gr => some gr.1
      | none => pctFirst rest

/-- `extract_percentage` of `literature_search.py`: first percentage match
in the text, as a string, else `None`. -/
def extract_percentage (text : String) : Option String :=
  (pctFirst text.data).map String.mk

/-- The character class `[\$â‚¹]` exactly as it stands (byte-for-byte) in
line 193 of the source: dollar sign plus the three mojibake characters of
a mis-decoded rupee sign (see header note). -/
def isCurrencySym (c : Char) : Bool :=
  c = '$' || c = 'â' || c = '‚' || c = '¹'

/-- Consume the greedy `(?:,\d+)*` repetition: as many groups as possible
of a comma followed by a nonempty digit run.  Structural recursion on a
fuel bounded by the list length (each iteration consumes at least two
characters of its suffix argument, so `fuel = l.length` never runs out). -/
def commaGroupsF : Nat → List Char → List Char × List Char
  | 0, l => ([], l)
  | fuel + 1, ',' :: c :: rest =>
      if c.isDigit then
        let p := takeDigits rest
        let q := commaGroupsF fuel p.2
        (',' :: c :: (p.1 ++ q.1), q.2)
      else ([], ',' :: c :: rest)
  | _ + 1, l => ([], l)

/-- Greedy `(?:,\d+)*` on `l`. -/
def commaGroups (l : List Char) : List Char × List Char :=
  commaGroupsF l.length l

/-- Attempt to match `[\$â‚¹](\d+(?:,\d+)*(?:\.\d+)?)` at the start of `l`:
currency symbol, nonempty digit run, comma groups, optional decimal part.
Returns the capture group (without the symbol) and the rest.  As with
`tryPct`, backtracking the greedy sub-matches can never turn a failure
into a success, and here nothing follows the capture group, so the greedy
maximal match is the regex's match. -/
def tryCost (l : List Char) : Option (List Char × List Char) :=
  match l with
  | [] => none
  | c :: rest =>
      if isCurrencySym c then
        let p := takeDigits rest
        if p.1.isEmpty then none
        else
          let q := commaGroups p.2
          match q.2 with
          | '.' :: r3 =>
              let d2 := takeDigits r3
              if d2.1.isEmpty then some (p.1 ++ q.1, q.2)
              else some (p.1 ++ q.1 ++ '.' :: d2.1, d2.2)
          | _ => some (p.1 ++ q.1, q.2)
      else none

/-- Leftmost match of the currency pattern (first element of the source's
`re.findall` result). -/
def costFirst : List Char → Option (List Char)
  | [] => none
  | c :: rest =>
      match tryCost (c :: rest) with
      | some gr => some gr.1
      | none => costFirst rest

/-- `extract_cost` of `literature_search.py`: digits of the first currency
match with the comma separators stripped (`costs[0].replace(',', '')`),
else `None`. -/
def extract_cost (text : String) : Option String :=
  (costFirst text.data).map (fun g => String.mk (g.filter (fun c => c ≠ ',')))

/-- A parsed PubMed article record (a Python dict whose values may be
`None`; keys absent from the dict are also modelled as `none`, which is
what `article.get(...)` returns for them). -/
structure Article where
  pmid : Option String := none
  title : Option String := none
  abstract : Option String := none
  year : Option String := none
  journal : Option String := none
  doi : Option String := none
  authors : Option String := none
deriving DecidableEq

/-- The `data_point` dict built per article: four baseline keys always
present, plus the conditionally assigned metric keys (outer `Option`:
key present in the dict; inner `Option String`: the extractor's possibly
`None` return value). -/
structure DataPoint where
  pmid : Option String
  title : Option String
  year : Option String
  doi : Option String
  efficacy : Option (Option String) := none
  cost : Option (Option String) := none
  coverage : Option (Option String) := none
  sensitivity : Option (Option String) := none
  specificity : Option (Option String) := none
  survival_rate : Option (Option String) := none
  cost_per_session : Option (Option String) := none
  success_rate : Option (Option String) := none
  accuracy : Option (Option String) := none
deriving DecidableEq

/-- Number of metric keys present in the dict beyond the four baseline
keys. -/
def metricCount (dp : DataPoint) : Nat :=
  (if dp.efficacy.isSome then 1 else 0) +
  (if dp.cost.isSome then 1 else 0) +
  (if dp.coverage.isSome then 1 else 0) +
  (if dp.sensitivity.isSome then 1 else 0) +
  (if dp.specificity.isSome then 1 else 0) +
  (if dp.survival_rate.isSome then 1 else 0) +
  (if dp.cost_per_session.isSome then 1 else 0) +
  (if dp.success_rate.isSome then 1 else 0) +
  (if dp.accuracy.isSome then 1 else 0)

/-- Python's `len(data_point)`: the four baseline keys are always present,
so the dict size is 4 plus the number of assigned metric keys. -/
def dpSize (dp : DataPoint) : Nat := 4 + metricCount dp

/-- Lines 136-175 of the source: the project-specific conditional metric
assignments, reading only the lower-cased abstract and writing only metric
keys of the data point. -/
def addMetrics (project_type : String) (abstract : String) (dp0 : DataPoint) :
    DataPoint :=
  if project_type = "hpv_vaccine" then
    let dp1 := if strContains "efficacy" abstract || strContains "effectiveness" abstract
      then { dp0 with efficacy := some (extract_percentage abstract) } else dp0
    let dp2 := if strContains "cost" abstract || strContains "price" abstract
      then { dp1 with cost := some (extract_cost abstract) } else dp1
    if strContains "coverage" abstract || strContains "uptake" abstract
      then { dp2 with coverage := some (extract_percentage abstract) } else dp2
  else if project_type = "ncd_screening" then
    let dp1 := if strContains "sensitivity" abstract
      then { dp0 with sensitivity := some (extract_percentage abstract) } else dp0
    let dp2 := if strContains "specificity" abstract
      then { dp1 with specificity := some (extract_percentage abstract) } else dp1
    if strContains "cost" abstract
      then { dp2 with cost := some (extract_cost abstract) } else dp2
  else if project_type = "dialysis" then
    let dp1 := if strContains "survival" abstract
      then { dp0 with survival_rate := some (extract_percentage abstract) } else dp0
    if strContains "cost" abstract
      then { dp1 with cost_per_session := some (extract_cost abstract) } else dp1
  else if project_type = "mdrtb" then
    let dp1 := if strContains "success" abstract || strContains "cure" abstract
      then { dp0 with success_rate := some (extract_percentage abstract) } else dp0
    if strContains "cost" abstract
      then { dp1 with cost := some (extract_cost abstract) } else dp1
  else if project_type = "ai_tb_cxr" then
    let dp1 := if strContains "accuracy" abstract
      then { dp0 with accuracy := some (extract_percentage abstract) } else dp0
    let dp2 := if strContains "sensitivity" abstract
      then { dp1 with sensitivity := some (extract_percentage abstract) } else dp1
    if strContains "specificity" abstract
      then { dp2 with specificity := some (extract_percentage abstract) } else dp2
  else dp0

/-- Lines 125-175 of the source, for one article: lower-case the abstract
and title, build the data point with the four baseline fields copied
verbatim, then run the category rules. -/
def buildDataPoint (project_type : String) (article : Article) : DataPoint :=
  let abstract := lowerStr (article.abstract.getD "")
  let _title := lowerStr (article.title.getD "")
  addMetrics project_type abstract
    { pmid := article.pmid, title := article.title,
      year := article.year, doi := article.doi }

/-- `extract_relevant_data` of `literature_search.py`: loop over the
articles (skipping `None` entries), build each data point and append it to
the accumulator exactly when its dict has more than the 4 baseline keys. -/
def extract_relevant_data (articles : List (Option Article))
    (project_type : String) : List DataPoint :=
  articles.foldl
    (fun extracted_data article =>
      match article with
      | none => extracted_data
      | some art =>
          let data_point := buildDataPoint project_type art
          if dpSize data_point > 4 then extracted_data ++ [data_point]
          else extracted_data)
    []

/-- The per-record step of the loop, as a partial map: `none` when the
record is a `None` entry or its data point is discarded by the retention
test, `some dp` when `dp` is appended. -/
def processArticle (project_type : String) : Option Article → Option DataPoint
  | none => none
  | some art =>
      let dp := buildDataPoint project_type art
      if dpSize dp > 4 then some dp else none

/-! ## Helper lemmas -/

/-- The accumulating loop of `extract_relevant_data` appends exactly the
records kept by `processArticle`, after any prior accumulator contents. -/
theorem extract_foldl_eq (pt : String) (arts : List (Option Article)) :
    ∀ acc : List DataPoint,
      List.foldl
        (fun extracted_data article =>
          match article with
          | none => extracted_data
          | some art =>
              let data_point := buildDataPoint pt art
              if dpSize data_point > 4 then extracted_data ++ [data_point]
              else extracted_data)
        acc arts
      = acc ++ arts.filterMap (processArticle pt) := by
  induction arts with
  | nil => intro acc; simp
  | cons a rest ih =>
    intro acc
    cases a with
    | none => simpa [processArticle] using ih acc
    | some art =>
      by_cases h : dpSize (buildDataPoint pt art) > 4
      · simp only [List.foldl_cons, List.filterMap_cons, processArticle, h,
          if_pos h, ite_true]
        rw [ih]
        simp
      · simp only [List.foldl_cons, List.filterMap_cons, processArticle, h,
          if_neg h, ite_false]
        rw [ih]

/-- `extract_relevant_data` is the order-preserving partial map of
`processArticle` over the input list. -/
theorem extract_eq_filterMap (arts : List (Option Article)) (pt : String) :
    extract_relevant_data arts pt = arts.filterMap (processArticle pt) := by
  simpa using extract_foldl_eq pt arts []

/-- The empty abstract fires no trigger, so no metric key is assigned. -/
theorem addMetrics_empty (pt : String) (dp : DataPoint) :
    addMetrics pt "" dp = dp := by
  unfold addMetrics
  simp only [show strContains "efficacy" "" = false by decide,
    show strContains "effectiveness" "" = false by decide,
    show strContains "cost" "" = false by decide,
    show strContains "price" "" = false by decide,
    show strContains "coverage" "" = false by decide,
    show strContains "uptake" "" = false by decide,
    show strContains "sensitivity" "" = false by decide,
    show strContains "specificity" "" = false by decide,
    show strContains "survival" "" = false by decide,
    show strContains "success" "" = false by decide,
    show strContains "cure" "" = false by decide,
    show strContains "accuracy" "" = false by decide,
    Bool.or_self, Bool.or_false, Bool.false_or]
  simp [ite_self]

/-- The tuple of the nine possible metric entries of a data point. -/
def metricsOf (dp : DataPoint) :
    Option (Option String) × Option (Option String) × Option (Option String) ×
    Option (Option String) × Option (Option String) × Option (Option String) ×
    Option (Option String) × Option (Option String) × Option (Option String) :=
  (dp.efficacy, dp.cost, dp.coverage, dp.sensitivity, dp.specificity,
   dp.survival_rate, dp.cost_per_session, dp.success_rate, dp.accuracy)

/-- The metric entries written by the rule step depend only on the category,
the abstract text and the metric entries already present — never on the
baseline fields. -/
theorem addMetrics_metrics_congr (pt : String) (abs : String)
    (dp dp' : DataPoint) (h : metricsOf dp = metricsOf dp') :
    metricsOf (addMetrics pt abs dp) = metricsOf (addMetrics pt abs dp') := by
  simp only [metricsOf, Prod.mk.injEq] at h
  obtain ⟨h1, h2, h3, h4, h5, h6, h7, h8, h9⟩ := h
  unfold addMetrics
  repeat' split
  all_goals simp_all [metricsOf]

/-- The rule step never writes the four baseline fields. -/
theorem addMetrics_baseline (pt : String) (abs : String) (dp : DataPoint) :
    (addMetrics pt abs dp).pmid = dp.pmid ∧
    (addMetrics pt abs dp).title = dp.title ∧
    (addMetrics pt abs dp).year = dp.year ∧
    (addMetrics pt abs dp).doi = dp.doi := by
  unfold addMetrics
  repeat' split
  all_goals exact ⟨rfl, rfl, rfl, rfl⟩

/-- The hpv_vaccine rules never write the sensitivity key. -/
theorem hpv_sensitivity_unchanged (abs : String) (dp : DataPoint) :
    (addMetrics "hpv_vaccine" abs dp).sensitivity = dp.sensitivity := by
  unfold addMetrics
  simp only [String.reduceEq, reduceIte]
  repeat' split
  all_goals rfl

/-- The ncd_screening rules never write the efficacy key. -/
theorem ncd_efficacy_unchanged (abs : String) (dp : DataPoint) :
    (addMetrics "ncd_screening" abs dp).efficacy = dp.efficacy := by
  unfold addMetrics
  simp only [String.reduceEq, reduceIte]
  repeat' split
  all_goals rfl

/-- When the cost/price trigger fires under hpv_vaccine, the cost key is
written with the (possibly `None`) result of `extract_cost`. -/
theorem hpv_cost_assigned (abs : String) (dp : DataPoint)
    (h : (strContains "cost" abs || strContains "price" abs) = true) :
    (addMetrics "hpv_vaccine" abs dp).cost = some (extract_cost abs) := by
  unfold addMetrics
  simp only [String.reduceEq, reduceIte, h]
  repeat' split
  all_goals rfl

/-- When its trigger fires under hpv_vaccine, the efficacy key is written with
the (possibly `None`) result of the extractor. -/
theorem hpv_efficacy_assigned (abs : String) (dp : DataPoint)
    (h : (strContains "efficacy" abs || strContains "effectiveness" abs) = true) :
    (addMetrics "hpv_vaccine" abs dp).efficacy = some (extract_percentage abs) := by
  unfold addMetrics
  simp only [String.reduceEq, reduceIte, h]
  repeat' split
  all_goals rfl

/-- When its trigger fires under hpv_vaccine, the coverage key is written with
the (possibly `None`) result of the extractor. -/
theorem hpv_coverage_assigned (abs : String) (dp : DataPoint)
    (h : (strContains "coverage" abs || strContains "uptake" abs) = true) :
    (addMetrics "hpv_vaccine" abs dp).coverage = some (extract_percentage abs) := by
  unfold addMetrics
  simp only [String.reduceEq, reduceIte, h]

/-- When its trigger fires under ncd_screening, the sensitivity key is written with
the (possibly `None`) result of the extractor. -/
theorem ncd_sensitivity_assigned (abs : String) (dp : DataPoint)
    (h : strContains "sensitivity" abs = true) :
    (addMetrics "ncd_screening" abs dp).sensitivity = some (extract_percentage abs) := by
  unfold addMetrics
  simp only [String.reduceEq, reduceIte, h]
  repeat' split
  all_goals rfl

/-- When its trigger fires under ncd_screening, the specificity key is written with
the (possibly `None`) result of the extractor. -/
theorem ncd_specificity_assigned (abs : String) (dp : DataPoint)
    (h : strContains "specificity" abs = true) :
    (addMetrics "ncd_screening" abs dp).specificity = some (extract_percentage abs) := by
  unfold addMetrics
  simp only [String.reduceEq, reduceIte, h]
  repeat' split
  all_goals rfl

/-- When its trigger fires under ncd_screening, the cost key is written with
the (possibly `None`) result of the extractor. -/
theorem ncd_cost_assigned (abs : String) (dp : DataPoint)
    (h : strContains "cost" abs = true) :
    (addMetrics "ncd_screening" abs dp).cost = some (extract_cost abs) := by
  unfold addMetrics
  simp only [String.reduceEq, reduceIte, h]

/-- When its trigger fires under dialysis, the survival_rate key is written with
the (possibly `None`) result of the extractor. -/
theorem dialysis_survival_assigned (abs : String) (dp : DataPoint)
    (h : strContains "survival" abs = true) :
    (addMetrics "dialysis" abs dp).survival_rate = some (extract_percentage abs) := by
  unfold addMetrics
  simp only [String.reduceEq, reduceIte, h]
  repeat' split
  all_goals rfl

/-- When its trigger fires under dialysis, the cost_per_session key is written with
the (possibly `None`) result of the extractor. -/
theorem dialysis_cost_assigned (abs : String) (dp : DataPoint)
    (h : strContains "cost" abs = true) :
    (addMetrics "dialysis" abs dp).cost_per_session = some (extract_cost abs) := by
  unfold addMetrics
  simp only [String.reduceEq, reduceIte, h]

/-- When its trigger fires under mdrtb, the success_rate key is written with
the (possibly `None`) result of the extractor. -/
theorem mdrtb_success_assigned (abs : String) (dp : DataPoint)
    (h : (strContains "success" abs || strContains "cure" abs) = true) :
    (addMetrics "mdrtb" abs dp).success_rate = some (extract_percentage abs) := by
  unfold addMetrics
  simp only [String.reduceEq, reduceIte, h]
  repeat' split
  all_goals rfl

/-- When its trigger fires under mdrtb, the cost key is written with
the (possibly `None`) result of the extractor. -/
theorem mdrtb_cost_assigned (abs : String) (dp : DataPoint)
    (h : strContains "cost" abs = true) :
    (addMetrics "mdrtb" abs dp).cost = some (extract_cost abs) := by
  unfold addMetrics
  simp only [String.reduceEq, reduceIte, h]

/-- When its trigger fires under ai_tb_cxr, the accuracy key is written with
the (possibly `None`) result of the extractor. -/
theorem ai_accuracy_assigned (abs : String) (dp : DataPoint)
    (h : strContains "accuracy" abs = true) :
    (addMetrics "ai_tb_cxr" abs dp).accuracy = some (extract_percentage abs) := by
  unfold addMetrics
  simp only [String.reduceEq, reduceIte, h]
  repeat' split
  all_goals rfl

/-- When its trigger fires under ai_tb_cxr, the sensitivity key is written with
the (possibly `None`) result of the extractor. -/
theorem ai_sensitivity_assigned (abs : String) (dp : DataPoint)
    (h : strContains "sensitivity" abs = true) :
    (addMetrics "ai_tb_cxr" abs dp).sensitivity = some (extract_percentage abs) := by
  unfold addMetrics
  simp only [String.reduceEq, reduceIte, h]
  repeat' split
  all_goals rfl

/-- When its trigger fires under ai_tb_cxr, the specificity key is written with
the (possibly `None`) result of the extractor. -/
theorem ai_specificity_assigned (abs : String) (dp : DataPoint)
    (h : strContains "specificity" abs = true) :
    (addMetrics "ai_tb_cxr" abs dp).specificity = some (extract_percentage abs) := by
  unfold addMetrics
  simp only [String.reduceEq, reduceIte, h]

/-- A data point whose efficacy key is present counts at least one metric key. -/
theorem metricCount_pos_of_efficacy (dp : DataPoint) (x : Option String)
    (h : dp.efficacy = some x) : 0 < metricCount dp := by
  simp [metricCount, h]

/-- A data point whose coverage key is present counts at least one metric key. -/
theorem metricCount_pos_of_coverage (dp : DataPoint) (x : Option String)
    (h : dp.coverage = some x) : 0 < metricCount dp := by
  simp [metricCount, h]

/-- A data point whose sensitivity key is present counts at least one metric key. -/
theorem metricCount_pos_of_sensitivity (dp : DataPoint) (x : Option String)
    (h : dp.sensitivity = some x) : 0 < metricCount dp := by
  simp [metricCount, h]

/-- A data point whose specificity key is present counts at least one metric key. -/
theorem metricCount_pos_of_specificity (dp : DataPoint) (x : Option String)
    (h : dp.specificity = some x) : 0 < metricCount dp := by
  simp [metricCount, h]

/-- A data point whose survival_rate key is present counts at least one metric key. -/
theorem metricCount_pos_of_survival_rate (dp : DataPoint) (x : Option String)
    (h : dp.survival_rate = some x) : 0 < metricCount dp := by
  simp [metricCount, h]

/-- A data point whose cost_per_session key is present counts at least one metric key. -/
theorem metricCount_pos_of_cost_per_session (dp : DataPoint) (x : Option String)
    (h : dp.cost_per_session = some x) : 0 < metricCount dp := by
  simp [metricCount, h]

/-- A data point whose success_rate key is present counts at least one metric key. -/
theorem metricCount_pos_of_success_rate (dp : DataPoint) (x : Option String)
    (h : dp.success_rate = some x) : 0 < metricCount dp := by
  simp [metricCount, h]

/-- A data point whose accuracy key is present counts at least one metric key. -/
theorem metricCount_pos_of_accuracy (dp : DataPoint) (x : Option String)
    (h : dp.accuracy = some x) : 0 < metricCount dp := by
  simp [metricCount, h]

/-- A data point with at least one metric key passes the retention test and
is kept by the per-record step. -/
theorem retained_of_metricCount_pos (pt : String) (art : Article)
    (hpos : 0 < metricCount (buildDataPoint pt art)) :
    processArticle pt (some art) = some (buildDataPoint pt art) := by
  simp only [processArticle]
  rw [if_pos]
  simp only [dpSize]
  omega

theorem tryPct_nil : tryPct [] = none := rfl

/-- `pctFirst` returns exactly the capture group of the match at the least
position where the percentage pattern matches, and `none` when no position
matches: the first-match semantics of `re.findall(...)[0]`. -/
theorem pctFirst_leftmost (l : List Char) (g : List Char) :
    pctFirst l = some g ↔
      ∃ i r, tryPct (l.drop i) = some (g, r) ∧
        ∀ j, j < i → tryPct (l.drop j) = none := by
  induction l with
  | nil =>
    simp only [pctFirst, List.drop_nil, tryPct_nil]
    constructor
    · intro h; cases h
    · rintro ⟨i, r, h, -⟩; cases h
  | cons c rest ih =>
    cases h : tryPct (c :: rest) with
    | some gr =>
      simp only [pctFirst, h]
      constructor
      · rintro ⟨rfl⟩
        exact ⟨0, gr.2, by simpa using h, fun j hj => absurd hj (Nat.not_lt_zero j)⟩
      · rintro ⟨i, r, hi, hmin⟩
        cases i with
        | zero =>
          simp only [List.drop_zero] at hi
          rw [h] at hi
          cases hi
          rfl
        | succ i' =>
          have := hmin 0 (Nat.succ_pos i')
          simp only [List.drop_zero] at this
          rw [h] at this
          cases this
    | none =>
      simp only [pctFirst, h]
      rw [ih]
      constructor
      · rintro ⟨i, r, hi, hmin⟩
        refine ⟨i + 1, r, by simpa using hi, ?_⟩
        intro j hj
        cases j with
        | zero => simpa using h
        | succ j' =>
          have := hmin j' (Nat.lt_of_succ_lt_succ hj)
          simpa using this
      · rintro ⟨i, r, hi, hmin⟩
        cases i with
        | zero =>
          simp only [List.drop_zero] at hi
          rw [h] at hi
          cases hi
        | succ i' =>
          refine ⟨i', r, by simpa using hi, ?_⟩
          intro j hj
          have := hmin (j + 1) (Nat.succ_lt_succ hj)
          simpa using this

/-- A data point whose cost key is present counts at least one metric key. -/
theorem metricCount_pos_of_cost (dp : DataPoint) (x : Option String)
    (h : dp.cost = some x) : 0 < metricCount dp := by
  simp [metricCount, h]

/-! ## Claim theorems -/

/-- C1: a data point appears in the output of `extract_relevant_data` iff it
was built from some input record and its dict holds strictly more than the 4
baseline keys, i.e. at least one category-specific metric key was populated;
every record contributing no more than the baseline keys is removed from the
output entirely.  (A "populated field" is a key present in the data-point
dict; a key may carry the extractor's `None` value.) -/
theorem retention_membership_iff :
    (∀ (pt : String) (arts : List (Option Article)) (dp : DataPoint),
        dp ∈ extract_relevant_data arts pt ↔
          ∃ art, some art ∈ arts ∧ dp = buildDataPoint pt art ∧ 4 < dpSize dp)
    ∧ ∀ dp : DataPoint, 4 < dpSize dp ↔ 0 < metricCount dp := by
  constructor
  · intro pt arts dp
    rw [extract_eq_filterMap, List.mem_filterMap]
    constructor
    · rintro ⟨a, ha, hpa⟩
      match a with
      | none => exact absurd hpa (by simp [processArticle])
      | some art =>
        simp only [processArticle] at hpa
        split at hpa
        · cases hpa
          exact ⟨art, ha, rfl, by assumption⟩
        · cases hpa
    · rintro ⟨art, ha, rfl, h⟩
      refine ⟨some art, ha, ?_⟩
      simp [processArticle, h]
  · intro dp
    simp only [dpSize]
    omega

/-- C2 (counterexample): a record whose abstract contains the trigger "cost"
but no currency match is NOT dropped, and the cost field is not absent: the
output keeps the record with the cost key set to the null marker `none`,
contradicting the claim that the field is absent and the record dropped. -/
theorem trigger_no_match_cex :
    extract_relevant_data [some { abstract := some "the cost was reasonable" }]
      "hpv_vaccine" =
      [{ pmid := none, title := none, year := none, doi := none,
         cost := some none }] := by decide

/-- C2 (amended): for every record whose lower-cased abstract contains a
trigger keyword of one of the active category's rules (any of the thirteen
trigger-to-metric rules of the five categories) but whose abstract contains
no substring matching the rule's numeric pattern, the metric field is
PRESENT in the data point with a null-marker value (Python `None`), not
absent, and since the key pushes the dict size above 4 the record is
RETAINED in the output even if no other rule matched. -/
theorem trigger_without_number_retained :
    (∀ art : Article,
        (strContains "efficacy" (lowerStr (art.abstract.getD "")) || strContains "effectiveness" (lowerStr (art.abstract.getD ""))) = true →
        extract_percentage (lowerStr (art.abstract.getD "")) = none →
        (buildDataPoint "hpv_vaccine" art).efficacy = some none ∧
          processArticle "hpv_vaccine" (some art) = some (buildDataPoint "hpv_vaccine" art))
    ∧ (∀ art : Article,
        (strContains "cost" (lowerStr (art.abstract.getD "")) || strContains "price" (lowerStr (art.abstract.getD ""))) = true →
        extract_cost (lowerStr (art.abstract.getD "")) = none →
        (buildDataPoint "hpv_vaccine" art).cost = some none ∧
          processArticle "hpv_vaccine" (some art) = some (buildDataPoint "hpv_vaccine" art))
    ∧ (∀ art : Article,
        (strContains "coverage" (lowerStr (art.abstract.getD "")) || strContains "uptake" (lowerStr (art.abstract.getD ""))) = true →
        extract_percentage (lowerStr (art.abstract.getD "")) = none →
        (buildDataPoint "hpv_vaccine" art).coverage = some none ∧
          processArticle "hpv_vaccine" (some art) = some (buildDataPoint "hpv_vaccine" art))
    ∧ (∀ art : Article,
        strContains "sensitivity" (lowerStr (art.abstract.getD "")) = true →
        extract_percentage (lowerStr (art.abstract.getD "")) = none →
        (buildDataPoint "ncd_screening" art).sensitivity = some none ∧
          processArticle "ncd_screening" (some art) = some (buildDataPoint "ncd_screening" art))
    ∧ (∀ art : Article,
        strContains "specificity" (lowerStr (art.abstract.getD "")) = true →
        extract_percentage (lowerStr (art.abstract.getD "")) = none →
        (buildDataPoint "ncd_screening" art).specificity = some none ∧
          processArticle "ncd_screening" (some art) = some (buildDataPoint "ncd_screening" art))
    ∧ (∀ art : Article,
        strContains "cost" (lowerStr (art.abstract.getD "")) = true →
        extract_cost (lowerStr (art.abstract.getD "")) = none →
        (buildDataPoint "ncd_screening" art).cost = some none ∧
          processArticle "ncd_screening" (some art) = some (buildDataPoint "ncd_screening" art))
    ∧ (∀ art : Article,
        strContains "survival" (lowerStr (art.abstract.getD "")) = true →
        extract_percentage (lowerStr (art.abstract.getD "")) = none →
        (buildDataPoint "dialysis" art).survival_rate = some none ∧
          processArticle "dialysis" (some art) = some (buildDataPoint "dialysis" art))
    ∧ (∀ art : Article,
        strContains "cost" (lowerStr (art.abstract.getD "")) = true →
        extract_cost (lowerStr (art.abstract.getD "")) = none →
        (buildDataPoint "dialysis" art).cost_per_session = some none ∧
          processArticle "dialysis" (some art) = some (buildDataPoint "dialysis" art))
    ∧ (∀ art : Article,
        (strContains "success" (lowerStr (art.abstract.getD "")) || strContains "cure" (lowerStr (art.abstract.getD ""))) = true →
        extract_percentage (lowerStr (art.abstract.getD "")) = none →
        (buildDataPoint "mdrtb" art).success_rate = some none ∧
          processArticle "mdrtb" (some art) = some (buildDataPoint "mdrtb" art))
    ∧ (∀ art : Article,
        strContains "cost" (lowerStr (art.abstract.getD "")) = true →
        extract_cost (lowerStr (art.abstract.getD "")) = none →
        (buildDataPoint "mdrtb" art).cost = some none ∧
          processArticle "mdrtb" (some art) = some (buildDataPoint "mdrtb" art))
    ∧ (∀ art : Article,
        strContains "accuracy" (lowerStr (art.abstract.getD "")) = true →
        extract_percentage (lowerStr (art.abstract.getD "")) = none →
        (buildDataPoint "ai_tb_cxr" art).accuracy = some none ∧
          processArticle "ai_tb_cxr" (some art) = some (buildDataPoint "ai_tb_cxr" art))
    ∧ (∀ art : Article,
        strContains "sensitivity" (lowerStr (art.abstract.getD "")) = true →
        extract_percentage (lowerStr (art.abstract.getD "")) = none →
        (buildDataPoint "ai_tb_cxr" art).sensitivity = some none ∧
          processArticle "ai_tb_cxr" (some art) = some (buildDataPoint "ai_tb_cxr" art))
    ∧ (∀ art : Article,
        strContains "specificity" (lowerStr (art.abstract.getD "")) = true →
        extract_percentage (lowerStr (art.abstract.getD "")) = none →
        (buildDataPoint "ai_tb_cxr" art).specificity = some none ∧
          processArticle "ai_tb_cxr" (some art) = some (buildDataPoint "ai_tb_cxr" art)) := by
  refine ⟨?_, ?_, ?_, ?_, ?_, ?_, ?_, ?_, ?_, ?_, ?_, ?_, ?_⟩
  · intro art htrig hnum
    have hass : (buildDataPoint "hpv_vaccine" art).efficacy =
        some (extract_percentage (lowerStr (art.abstract.getD ""))) := by
      unfold buildDataPoint
      exact hpv_efficacy_assigned _ _ htrig
    exact ⟨by rw [hass, hnum],
      retained_of_metricCount_pos _ _ (metricCount_pos_of_efficacy _ _ hass)⟩
  · intro art htrig hnum
    have hass : (buildDataPoint "hpv_vaccine" art).cost =
        some (extract_cost (lowerStr (art.abstract.getD ""))) := by
      unfold buildDataPoint
      exact hpv_cost_assigned _ _ htrig
    exact ⟨by rw [hass, hnum],
      retained_of_metricCount_pos _ _ (metricCount_pos_of_cost _ _ hass)⟩
  · intro art htrig hnum
    have hass : (buildDataPoint "hpv_vaccine" art).coverage =
        some (extract_percentage (lowerStr (art.abstract.getD ""))) := by
      unfold buildDataPoint
      exact hpv_coverage_assigned _ _ htrig
    exact ⟨by rw [hass, hnum],
      retained_of_metricCount_pos _ _ (metricCount_pos_of_coverage _ _ hass)⟩
  · intro art htrig hnum
    have hass : (buildDataPoint "ncd_screening" art).sensitivity =
        some (extract_percentage (lowerStr (art.abstract.getD ""))) := by
      unfold buildDataPoint
      exact ncd_sensitivity_assigned _ _ htrig
    exact ⟨by rw [hass, hnum],
      retained_of_metricCount_pos _ _ (metricCount_pos_of_sensitivity _ _ hass)⟩
  · intro art htrig hnum
    have hass : (buildDataPoint "ncd_screening" art).specificity =
        some (extract_percentage (lowerStr (art.abstract.getD ""))) := by
      unfold buildDataPoint
      exact ncd_specificity_assigned _ _ htrig
    exact ⟨by rw [hass, hnum],
      retained_of_metricCount_pos _ _ (metricCount_pos_of_specificity _ _ hass)⟩
  · intro art htrig hnum
    have hass : (buildDataPoint "ncd_screening" art).cost =
        some (extract_cost (lowerStr (art.abstract.getD ""))) := by
      unfold buildDataPoint
      exact ncd_cost_assigned _ _ htrig
    exact ⟨by rw [hass, hnum],
      retained_of_metricCount_pos _ _ (metricCount_pos_of_cost _ _ hass)⟩
  · intro art htrig hnum
    have hass : (buildDataPoint "dialysis" art).survival_rate =
        some (extract_percentage (lowerStr (art.abstract.getD ""))) := by
      unfold buildDataPoint
      exact dialysis_survival_assigned _ _ htrig
    exact ⟨by rw [hass, hnum],
      retained_of_metricCount_pos _ _ (metricCount_pos_of_survival_rate _ _ hass)⟩
  · intro art htrig hnum
    have hass : (buildDataPoint "dialysis" art).cost_per_session =
        some (extract_cost (lowerStr (art.abstract.getD ""))) := by
      unfold buildDataPoint
      exact dialysis_cost_assigned _ _ htrig
    exact ⟨by rw [hass, hnum],
      retained_of_metricCount_pos _ _ (metricCount_pos_of_cost_per_session _ _ hass)⟩
  · intro art htrig hnum
    have hass : (buildDataPoint "mdrtb" art).success_rate =
        some (extract_percentage (lowerStr (art.abstract.getD ""))) := by
      unfold buildDataPoint
      exact mdrtb_success_assigned _ _ htrig
    exact ⟨by rw [hass, hnum],
      retained_of_metricCount_pos _ _ (metricCount_pos_of_success_rate _ _ hass)⟩
  · intro art htrig hnum
    have hass : (buildDataPoint "mdrtb" art).cost =
        some (extract_cost (lowerStr (art.abstract.getD ""))) := by
      unfold buildDataPoint
      exact mdrtb_cost_assigned _ _ htrig
    exact ⟨by rw [hass, hnum],
      retained_of_metricCount_pos _ _ (metricCount_pos_of_cost _ _ hass)⟩
  · intro art htrig hnum
    have hass : (buildDataPoint "ai_tb_cxr" art).accuracy =
        some (extract_percentage (lowerStr (art.abstract.getD ""))) := by
      unfold buildDataPoint
      exact ai_accuracy_assigned _ _ htrig
    exact ⟨by rw [hass, hnum],
      retained_of_metricCount_pos _ _ (metricCount_pos_of_accuracy _ _ hass)⟩
  · intro art htrig hnum
    have hass : (buildDataPoint "ai_tb_cxr" art).sensitivity =
        some (extract_percentage (lowerStr (art.abstract.getD ""))) := by
      unfold buildDataPoint
      exact ai_sensitivity_assigned _ _ htrig
    exact ⟨by rw [hass, hnum],
      retained_of_metricCount_pos _ _ (metricCount_pos_of_sensitivity _ _ hass)⟩
  · intro art htrig hnum
    have hass : (buildDataPoint "ai_tb_cxr" art).specificity =
        some (extract_percentage (lowerStr (art.abstract.getD ""))) := by
      unfold buildDataPoint
      exact ai_specificity_assigned _ _ htrig
    exact ⟨by rw [hass, hnum],
      retained_of_metricCount_pos _ _ (metricCount_pos_of_specificity _ _ hass)⟩

/-- C2 witness: the abstract "the cost was reasonable" fires the cost
trigger under hpv_vaccine, yields no currency match, and the record is
retained with a null cost value. -/
theorem trigger_without_number_retained_witness :
    (buildDataPoint "hpv_vaccine" { abstract := some "the cost was reasonable" }).cost =
        some none ∧
      processArticle "hpv_vaccine" (some { abstract := some "the cost was reasonable" }) =
        some (buildDataPoint "hpv_vaccine" { abstract := some "the cost was reasonable" }) :=
  trigger_without_number_retained.2.1 { abstract := some "the cost was reasonable" }
    (by decide) (by decide)

/-- C3: percentage extraction returns, as a string, the capture group of the
match at the least position of the abstract where the percentage pattern
(unsigned decimal number immediately followed by a percent sign) matches,
and nothing when no position matches; in particular the abstract
"efficacy was 85% in group A and 90% in group B" under hpv_vaccine yields
the efficacy value "85", not "90". -/
theorem percentage_first_match :
    (∀ (text : String) (s : String),
        extract_percentage text = some s ↔
          ∃ g i r, s = String.mk g ∧ tryPct (text.data.drop i) = some (g, r) ∧
            ∀ j, j < i → tryPct (text.data.drop j) = none)
    ∧ (buildDataPoint "hpv_vaccine"
        { abstract := some "efficacy was 85% in group A and 90% in group B" }).efficacy =
        some (some "85") := by
  constructor
  · intro text s
    simp only [extract_percentage, Option.map_eq_some']
    constructor
    · rintro ⟨g, hg, rfl⟩
      obtain ⟨i, r, hi, hmin⟩ := (pctFirst_leftmost _ _).mp hg
      exact ⟨g, i, r, rfl, hi, hmin⟩
    · rintro ⟨g, i, r, rfl, hi, hmin⟩
      exact ⟨g, (pctFirst_leftmost _ _).mpr ⟨i, r, hi, hmin⟩, rfl⟩
  · decide

/-- C4: currency extraction strips the comma separators of the first
dollar-sign match ("cost of $1,200.50 per dose" gives "1200.50"), but the
rupee sign does NOT match: the source's character class contains the three
characters of the rupee sign's UTF-8 bytes mis-decoded as Latin-1 (`â`,
`‚`, `¹`) instead of `₹`, so "cost of ₹500 per dose" yields no value while
the mojibake text "â‚¹500" does match. -/
theorem currency_mojibake_divergence :
    extract_cost "cost of $1,200.50 per dose" = some "1200.50" ∧
      extract_cost "cost of ₹500 per dose" = none ∧
      extract_cost "cost of â‚¹500 per dose" = some "500" :=
  ⟨by decide, by decide, by decide⟩

/-- C5: under any category string other than the five recognized values, no
metric rule applies — every data point holds only the four baseline keys —
and every record is dropped, so the output is empty for every input batch. -/
theorem unrecognized_category_empty (pt : String) (arts : List (Option Article))
    (h1 : pt ≠ "hpv_vaccine") (h2 : pt ≠ "ncd_screening") (h3 : pt ≠ "dialysis")
    (h4 : pt ≠ "mdrtb") (h5 : pt ≠ "ai_tb_cxr") :
    (∀ art : Article, metricCount (buildDataPoint pt art) = 0) ∧
      extract_relevant_data arts pt = [] := by
  have hmc : ∀ art : Article, metricCount (buildDataPoint pt art) = 0 := by
    intro art
    simp only [buildDataPoint, addMetrics, if_neg h1, if_neg h2, if_neg h3,
      if_neg h4, if_neg h5]
    rfl
  refine ⟨hmc, ?_⟩
  rw [extract_eq_filterMap, List.filterMap_eq_nil_iff]
  intro a ha
  match a with
  | none => rfl
  | some art => simp [processArticle, dpSize, hmc art]

/-- C5 witness: the category "general" drops a record whose abstract would
match several rules under the recognized categories. -/
theorem unrecognized_category_empty_witness :
    (∀ art : Article, metricCount (buildDataPoint "general" art) = 0) ∧
      extract_relevant_data
        [some { abstract := some "Efficacy was 85% and cost $20" }] "general" = [] :=
  unrecognized_category_empty "general" _
    (by decide) (by decide) (by decide) (by decide) (by decide)

/-- C6: the output of `extract_relevant_data` is the order-preserving
partial map of the per-record step over the input sequence: retained data
points keep the relative order of their source records, and each output
data point is derived from exactly one input record. -/
theorem extract_output_order_preserving :
    ∀ (arts : List (Option Article)) (pt : String),
      extract_relevant_data arts pt = arts.filterMap (processArticle pt) :=
  extract_eq_filterMap

/-- C7: metric extraction is isolated per category: for every record the
hpv_vaccine rules never produce a sensitivity key and the ncd_screening
rules never produce an efficacy key; on an abstract containing both
"sensitivity: 80%" and "efficacy: 70%", hpv_vaccine yields an efficacy
field (and no sensitivity field) while ncd_screening yields a sensitivity
field (and no efficacy field). -/
theorem category_isolation :
    (∀ art : Article, (buildDataPoint "hpv_vaccine" art).sensitivity = none ∧
        (buildDataPoint "ncd_screening" art).efficacy = none)
    ∧ (buildDataPoint "hpv_vaccine"
        { abstract := some "sensitivity: 80% and efficacy: 70%" }).efficacy.isSome = true
    ∧ (buildDataPoint "ncd_screening"
        { abstract := some "sensitivity: 80% and efficacy: 70%" }).sensitivity.isSome = true := by
  refine ⟨fun art => ⟨?_, ?_⟩, by decide, by decide⟩
  · unfold buildDataPoint
    rw [hpv_sensitivity_unchanged]
  · unfold buildDataPoint
    rw [ncd_efficacy_unchanged]

/-- C8: the extractor is a total function of its well-typed input (every
embedded operation is total), missing text fields are replaced by the empty
string, and a record whose abstract is missing or empty fires no trigger:
it is silently dropped from the output at any batch position, under every
category. -/
theorem empty_text_record_dropped (pt : String) (art : Article)
    (habs : art.abstract = none ∨ art.abstract = some "")
    (_htit : art.title = none ∨ art.title = some "") :
    processArticle pt (some art) = none ∧
      ∀ pre post : List (Option Article),
        extract_relevant_data (pre ++ some art :: post) pt =
          extract_relevant_data (pre ++ post) pt := by
  have habs' : art.abstract.getD "" = "" := by rcases habs with h | h <;> simp [h]
  have hb : buildDataPoint pt art =
      { pmid := art.pmid, title := art.title, year := art.year, doi := art.doi } := by
    unfold buildDataPoint
    rw [habs']
    exact addMetrics_empty pt _
  have hdrop : processArticle pt (some art) = none := by
    simp [processArticle, hb, dpSize, metricCount]
  refine ⟨hdrop, ?_⟩
  intro pre post
  rw [extract_eq_filterMap, extract_eq_filterMap, List.filterMap_append,
    List.filterMap_append, List.filterMap_cons, hdrop]

/-- C8 witness: a record with empty title and abstract is dropped under
mdrtb. -/
theorem empty_text_record_dropped_witness :
    processArticle "mdrtb" (some { title := some "", abstract := some "" }) = none ∧
      extract_relevant_data [some { title := some "", abstract := some "" }] "mdrtb" =
        extract_relevant_data [] "mdrtb" :=
  ⟨(empty_text_record_dropped "mdrtb" _ (Or.inr rfl) (Or.inr rfl)).1,
   (empty_text_record_dropped "mdrtb" _ (Or.inr rfl) (Or.inr rfl)).2 [] []⟩

/-- C9: every output data point copies the four baseline fields verbatim
(not lower-cased) from its record, and the metric entries depend only on
the record's abstract text: two records with the same abstract (e.g.
differing only in title) receive identical metric entries. -/
theorem baseline_verbatim_metrics_from_abstract (pt : String) (a1 a2 : Article)
    (h : a1.abstract = a2.abstract) :
    (buildDataPoint pt a1).pmid = a1.pmid ∧
    (buildDataPoint pt a1).title = a1.title ∧
    (buildDataPoint pt a1).year = a1.year ∧
    (buildDataPoint pt a1).doi = a1.doi ∧
    metricsOf (buildDataPoint pt a1) = metricsOf (buildDataPoint pt a2) := by
  refine ⟨?_, ?_, ?_, ?_, ?_⟩
  · unfold buildDataPoint; exact (addMetrics_baseline _ _ _).1
  · unfold buildDataPoint; exact (addMetrics_baseline _ _ _).2.1
  · unfold buildDataPoint; exact (addMetrics_baseline _ _ _).2.2.1
  · unfold buildDataPoint; exact (addMetrics_baseline _ _ _).2.2.2
  · unfold buildDataPoint
    rw [h]
    exact addMetrics_metrics_congr _ _ _ _ rfl

/-- C9 witness: two records differing only in their (mixed-case) title keep
their titles verbatim and receive identical metric entries. -/
theorem baseline_verbatim_metrics_from_abstract_witness :
    (buildDataPoint "hpv_vaccine"
        { title := some "Study A", abstract := some "efficacy 85%" }).pmid = none ∧
    (buildDataPoint "hpv_vaccine"
        { title := some "Study A", abstract := some "efficacy 85%" }).title = some "Study A" ∧
    (buildDataPoint "hpv_vaccine"
        { title := some "Study A", abstract := some "efficacy 85%" }).year = none ∧
    (buildDataPoint "hpv_vaccine"
        { title := some "Study A", abstract := some "efficacy 85%" }).doi = none ∧
    metricsOf (buildDataPoint "hpv_vaccine"
        { title := some "Study A", abstract := some "efficacy 85%" }) =
      metricsOf (buildDataPoint "hpv_vaccine"
        { title := some "Study B", abstract := some "efficacy 85%" }) :=
  baseline_verbatim_metrics_from_abstract "hpv_vaccine" _ _ rfl

